import Mathlib

/-!
# Shallow embedding of the wallet-connect components

Source files embedded here:
* `src/components/ui/multi-wallet-connect.tsx` — `MultiWalletConnect`
* `src/components/ui/metamask-connect.tsx` — `MetaMaskConnect`
* `src/unnamed/part_000` — an older `MetaMaskConnect` variant whose
  `checkConnection` / `connectWallet` bodies are textually identical to the
  ones in `metamask-connect.tsx`; it registers no account-change listener.

Modelling conventions:
* Browser-injected providers (`window.ethereum`, `window.solana`,
  `window.keplr`) are an `Env` of optional provider records.  Each provider
  call that returns a promise is modelled as an `Except Unit` value held by
  the record; `.error ()` models the promise rejecting (the call throwing).
* A provider method that one operation may call twice (`eth_accounts`,
  `keplr.getOfflineSigner`, `offlineSigner.getAccounts`) is a function of the
  call site index: `0` is the pre-connect probe (`checkExistingConnection` /
  `checkConnection`), `1` the connect phase that follows.  The provider may
  answer each site differently, as a real extension may.
* JS `undefined` (produced by `accounts[0]` on an empty array) is modelled
  by `Option String` with `none` for `undefined`; the React `useState('')`
  initial value is `some ""`.
* Each operation returns its new state together with a `List Event` trace of
  the provider calls it issued and the `console.error` logs it emitted.
  Event-listener registration (`ethereum.on` / `solana.on`) is wiring, not an
  invoked provider operation, and contributes no `Event.call`.
* `js-cookie` writes are the `cookies` field of `MultiState`: the component
  only ever sets the pair `walletType` / `accountAddress` (in
  `refreshCookies`) and only ever removes exactly that pair (in
  `disconnectWallet`), so the jar is one optional pair of strings.
  `Cookies.set` stringifies a `null` wallet type to `"null"` and an
  `undefined` address to `"undefined"`.
-/

namespace Wallet

/-- Provider methods the embedding can talk about.  The first eight are the
ones the source actually invokes; the remaining ones are signing /
broadcasting / key-management methods the real extensions expose, included so
that "only these methods are ever called" is not vacuous. -/
inductive Method where
  | ethAccounts
  | ethRequestAccounts
  | solConnect
  | solIsConnected
  | solPublicKey
  | keplrEnable
  | keplrGetOfflineSigner
  | keplrGetAccounts
  | ethSign
  | ethSendTransaction
  | solSignTransaction
  | solDisconnect
  | keplrSignAmino
  deriving DecidableEq, Fintype

/-- One entry of an operation's trace: a provider call, or a
`console.error` log. -/
inductive Event where
  | call (m : Method)
  | logError
  deriving DecidableEq

/-- The provider calls occurring in a trace, in order. -/
def callsOf (t : List Event) : List Method :=
  t.filterMap fun e => match e with | .call m => some m | .logError => none

/-- `window.ethereum`.  `accountsAt n` is the response to the
`eth_accounts` request issued at call site `n` (0 = probe, 1 = connect
phase); `requestAccounts` the response to `eth_requestAccounts`. -/
structure EthProvider where
  isMetaMask : Bool
  accountsAt : Nat → Except Unit (List String)
  requestAccounts : Except Unit (List String)

/-- `window.solana`.  `publicKey` is the provider's `publicKey` property
(`.toString()` already applied); `connectResult` the `publicKey.toString()`
of a successful `connect()`. -/
structure SolProvider where
  isPhantom : Bool
  isConnectedResult : Except Unit Bool
  publicKey : Option String
  connectResult : Except Unit String

/-- `window.keplr`.  `signerThrowsAt n` says whether
`getOfflineSigner('cosmoshub-4')` throws at call site `n`; `accountsAt n` is
the address list `getAccounts()` resolves to at site `n`. -/
structure KeplrProvider where
  enableResult : Except Unit Unit
  signerThrowsAt : Nat → Bool
  accountsAt : Nat → Except Unit (List String)

/-- The browser environment: the three optional injected globals. -/
structure Env where
  ethereum : Option EthProvider
  solana : Option SolProvider
  keplr : Option KeplrProvider

/-- The `WalletType` union of `multi-wallet-connect.tsx`. -/
inductive WalletType where
  | MetaMask
  | Phantom
  | Keplr
  deriving DecidableEq, Fintype

/-- The string a `WalletType` renders to (cookie value). -/
def wtStr : WalletType → String
  | .MetaMask => "MetaMask"
  | .Phantom => "Phantom"
  | .Keplr => "Keplr"

/-- What `Cookies.set('walletType', x)` stores when `x` is the possibly-null
`connectedWallet` (js-cookie stringifies `null`). -/
def serializeWT : Option WalletType → String
  | some t => wtStr t
  | none => "null"

/-- What `Cookies.set('accountAddress', x)` stores when `x` is a possibly
`undefined` account (js-cookie stringifies `undefined`). -/
def serializeAcc : Option String → String
  | some s => s
  | none => "undefined"

/-- State of `MultiWalletConnect`, plus the cookie pair it maintains.
`cookies = some (wt, addr)` means both cookies are set to those strings;
`none` means both are absent/removed. -/
structure MultiState where
  isOpen : Bool
  connectedWallet : Option WalletType
  account : Option String
  cookies : Option (String × String)
  deriving DecidableEq

/-- `useState` initial values of `MultiWalletConnect`; no cookies written. -/
def initMulti : MultiState :=
  { isOpen := false, connectedWallet := none, account := some "", cookies := none }

/-- State of `MetaMaskConnect`. -/
structure MetaState where
  isOpen : Bool
  isConnected : Bool
  account : Option String
  deriving DecidableEq

/-- `useState` initial values of `MetaMaskConnect`. -/
def initMeta : MetaState :=
  { isOpen := false, isConnected := false, account := some "" }

/-- Result of `checkExistingConnection`: its boolean return value, the state
after its `setX` calls, and its trace. -/
structure ProbeResult where
  found : Bool
  state : MultiState
  trace : List Event
  deriving DecidableEq

/-- Result of a connect-style operation: `ok` is true iff the operation ran
to completion without an exception being caught. -/
structure ConnectResult where
  ok : Bool
  state : MultiState
  trace : List Event
  deriving DecidableEq

/-- `refreshCookies(walletType, accountAddress)`: sets both cookies. -/
def refreshCookies (s : MultiState) (wt : String) (addr : String) : MultiState :=
  { s with cookies := some (wt, addr) }

/-- `disconnectWallet` of `MultiWalletConnect`: clears wallet, account and
dialog state and removes both cookies. -/
def disconnectWallet (s : MultiState) : MultiState :=
  { s with connectedWallet := none, account := some "", isOpen := false,
           cookies := none }

/-- The `'MetaMask'` case of `checkExistingConnection`: probe
`eth_accounts`; a non-empty list connects and refreshes cookies; a throw is
caught by the function's outer catch, which logs. -/
def probeMetaMask (env : Env) (s : MultiState) : ProbeResult :=
  match env.ethereum with
  | none => { found := false, state := s, trace := [] }
  | some e =>
    match e.accountsAt 0 with
    | .error _ => { found := false, state := s, trace := [.call .ethAccounts, .logError] }
    | .ok accounts =>
      match accounts with
      | [] => { found := false, state := s, trace := [.call .ethAccounts] }
      | a :: _ =>
        { found := true,
          state := refreshCookies
            { s with account := some a, connectedWallet := some .MetaMask }
            (wtStr .MetaMask) a,
          trace := [.call .ethAccounts] }

/-- The `'Phantom'` case of `checkExistingConnection`: `isConnected()`, then
the `publicKey` property; a throw is caught by the outer catch, which
logs. -/
def probePhantom (env : Env) (s : MultiState) : ProbeResult :=
  match env.solana with
  | none => { found := false, state := s, trace := [] }
  | some sol =>
    if sol.isPhantom then
      match sol.isConnectedResult with
      | .error _ => { found := false, state := s, trace := [.call .solIsConnected, .logError] }
      | .ok false => { found := false, state := s, trace := [.call .solIsConnected] }
      | .ok true =>
        match sol.publicKey with
        | none =>
          { found := false, state := s,
            trace := [.call .solIsConnected, .call .solPublicKey] }
        | some pk =>
          { found := true,
            state := refreshCookies
              { s with account := some pk, connectedWallet := some .Phantom }
              (wtStr .Phantom) pk,
            trace := [.call .solIsConnected, .call .solPublicKey] }
    else { found := false, state := s, trace := [] }

/-- The `'Keplr'` case of `checkExistingConnection`: `getOfflineSigner` then
`getAccounts`, inside an inner try/catch whose catch block is empty — a
throw here is swallowed with no log. -/
def probeKeplr (env : Env) (s : MultiState) : ProbeResult :=
  match env.keplr with
  | none => { found := false, state := s, trace := [] }
  | some k =>
    if k.signerThrowsAt 0 then
      { found := false, state := s, trace := [.call .keplrGetOfflineSigner] }
    else
      match k.accountsAt 0 with
      | .error _ =>
        { found := false, state := s,
          trace := [.call .keplrGetOfflineSigner, .call .keplrGetAccounts] }
      | .ok accounts =>
        match accounts with
        | [] =>
          { found := false, state := s,
            trace := [.call .keplrGetOfflineSigner, .call .keplrGetAccounts] }
        | a :: _ =>
          { found := true,
            state := refreshCookies
              { s with account := some a, connectedWallet := some .Keplr }
              (wtStr .Keplr) a,
            trace := [.call .keplrGetOfflineSigner, .call .keplrGetAccounts] }

/-- `checkExistingConnection(walletType)` of `MultiWalletConnect`. -/
def checkExistingConnection (env : Env) (s : MultiState) : WalletType → ProbeResult
  | .MetaMask => probeMetaMask env s
  | .Phantom => probePhantom env s
  | .Keplr => probeKeplr env s

/-- The per-wallet `switch` of `connectWallet`, reached when
`checkExistingConnection` returned false.  Success ends at
`setIsOpen(false)`; a throw (including `'not detected'`) is caught and
logged (and alerted). In the Keplr branch, `setAccount(accounts[0].address)`
on an empty list throws a TypeError (property access on `undefined`), so an
empty Keplr account list lands in the catch. -/
def connectPhase (env : Env) (s : MultiState) : WalletType → ConnectResult
  | .MetaMask =>
    match env.ethereum with
    | none => { ok := false, state := s, trace := [.logError] }
    | some e =>
      match e.requestAccounts with
      | .error _ =>
        { ok := false, state := s, trace := [.call .ethRequestAccounts, .logError] }
      | .ok _ =>
        match e.accountsAt 1 with
        | .error _ =>
          { ok := false, state := s,
            trace := [.call .ethRequestAccounts, .call .ethAccounts, .logError] }
        | .ok accounts =>
          { ok := true,
            state := refreshCookies
              { s with account := accounts.head?,
                       connectedWallet := some .MetaMask, isOpen := false }
              (wtStr .MetaMask) (serializeAcc accounts.head?),
            trace := [.call .ethRequestAccounts, .call .ethAccounts] }
  | .Phantom =>
    match env.solana with
    | none => { ok := false, state := s, trace := [.logError] }
    | some sol =>
      if sol.isPhantom then
        match sol.connectResult with
        | .error _ => { ok := false, state := s, trace := [.call .solConnect, .logError] }
        | .ok pk =>
          { ok := true,
            state := refreshCookies
              { s with account := some pk,
                       connectedWallet := some .Phantom, isOpen := false }
              (wtStr .Phantom) pk,
            trace := [.call .solConnect] }
      else { ok := false, state := s, trace := [.logError] }
  | .Keplr =>
    match env.keplr with
    | none => { ok := false, state := s, trace := [.logError] }
    | some k =>
      match k.enableResult with
      | .error _ => { ok := false, state := s, trace := [.call .keplrEnable, .logError] }
      | .ok _ =>
        if k.signerThrowsAt 1 then
          { ok := false, state := s,
            trace := [.call .keplrEnable, .call .keplrGetOfflineSigner, .logError] }
        else
          match k.accountsAt 1 with
          | .error _ =>
            { ok := false, state := s,
              trace := [.call .keplrEnable, .call .keplrGetOfflineSigner,
                        .call .keplrGetAccounts, .logError] }
          | .ok [] =>
            { ok := false, state := s,
              trace := [.call .keplrEnable, .call .keplrGetOfflineSigner,
                        .call .keplrGetAccounts, .logError] }
          | .ok (a :: _) =>
            { ok := true,
              state := refreshCookies
                { s with account := some a,
                         connectedWallet := some .Keplr, isOpen := false }
                (wtStr .Keplr) a,
              trace := [.call .keplrEnable, .call .keplrGetOfflineSigner,
                        .call .keplrGetAccounts] }

/-- `connectWallet(walletType)` of `MultiWalletConnect`: probe for an
existing connection first; on success close the dialog and return,
otherwise run the per-wallet connect switch. -/
def connectWallet (env : Env) (s : MultiState) (w : WalletType) : ConnectResult :=
  let p := checkExistingConnection env s w
  if p.found then
    { ok := true, state := { p.state with isOpen := false }, trace := p.trace }
  else
    let c := connectPhase env p.state w
    { c with trace := p.trace ++ c.trace }

/-- The ethereum `accountsChanged` handler of `MultiWalletConnect`: a
non-empty list stores its head and refreshes cookies with the current
(possibly null) `connectedWallet`; an empty list disconnects. -/
def multiAccountsChanged (s : MultiState) : List String → MultiState
  | a :: _ => refreshCookies { s with account := some a } (serializeWT s.connectedWallet) a
  | [] => disconnectWallet s

/-- The solana `accountChanged` handler of `MultiWalletConnect`: a non-null
public key stores its string and refreshes cookies; null disconnects. -/
def solAccountChanged (s : MultiState) : Option String → MultiState
  | some pk => refreshCookies { s with account := some pk } (serializeWT s.connectedWallet) pk
  | none => disconnectWallet s

/-- The mount effect of `MultiWalletConnect` only registers event listeners:
it touches no state and issues no provider call. -/
def multiMount (_env : Env) (s : MultiState) : MultiState × List Event :=
  (s, [])

/-- The user interactions and provider events `MultiWalletConnect` can
process. -/
inductive MultiOp where
  | mount
  | openDialog
  | setOpen (b : Bool)
  | connect (w : WalletType)
  | disconnect
  | ethAccountsChanged (accounts : List String)
  | solAccountChangedEv (pk : Option String)
  deriving DecidableEq

/-- State transition of `MultiWalletConnect` for one operation. -/
def multiStep (env : Env) (s : MultiState) : MultiOp → MultiState
  | .mount => (multiMount env s).1
  | .openDialog => { s with isOpen := true }
  | .setOpen b => { s with isOpen := b }
  | .connect w => (connectWallet env s w).state
  | .disconnect => disconnectWallet s
  | .ethAccountsChanged accounts => multiAccountsChanged s accounts
  | .solAccountChangedEv pk => solAccountChanged s pk

/-- Provider-call/log trace of one `MultiWalletConnect` operation. -/
def multiTrace (env : Env) (s : MultiState) : MultiOp → List Event
  | .mount => (multiMount env s).2
  | .connect w => (connectWallet env s w).trace
  | _ => []

/-- `checkConnection` of `MetaMaskConnect` (identical in `part_000`):
probe `eth_accounts`; a non-empty list connects; a throw is caught and
logged. -/
def metaCheckConnection (env : Env) (s : MetaState) : MetaState × List Event :=
  match env.ethereum with
  | none => (s, [])
  | some e =>
    match e.accountsAt 0 with
    | .error _ => (s, [.call .ethAccounts, .logError])
    | .ok accounts =>
      match accounts with
      | [] => (s, [.call .ethAccounts])
      | a :: _ =>
        ({ s with account := some a, isConnected := true }, [.call .ethAccounts])

/-- The mount effect of `MetaMaskConnect` runs `checkConnection` (and
registers the `accountsChanged` listener, which is trace-free wiring). -/
def metaMount (env : Env) (s : MetaState) : MetaState × List Event :=
  metaCheckConnection env s

/-- `connectWallet` of `MetaMaskConnect` (identical in `part_000`):
`eth_requestAccounts`, then `eth_accounts` (call site 0 of this operation —
the probe is a separate operation), storing `accounts[0]` with no emptiness
check; a throw is caught and logged; an absent provider only
`console.log`s. -/
def metaConnectWallet (env : Env) (s : MetaState) : MetaState × List Event :=
  match env.ethereum with
  | none => (s, [])
  | some e =>
    match e.requestAccounts with
    | .error _ => (s, [.call .ethRequestAccounts, .logError])
    | .ok _ =>
      match e.accountsAt 0 with
      | .error _ => (s, [.call .ethRequestAccounts, .call .ethAccounts, .logError])
      | .ok accounts =>
        ({ s with account := accounts.head?, isConnected := true, isOpen := false },
         [.call .ethRequestAccounts, .call .ethAccounts])

/-- The `accountsChanged` handler of `MetaMaskConnect`. -/
def metaAccountsChanged (s : MetaState) : List String → MetaState
  | a :: _ => { s with account := some a, isConnected := true }
  | [] => { s with isConnected := false, account := some "" }

/-- `disconnectWallet` of `MetaMaskConnect`. -/
def metaDisconnectWallet (s : MetaState) : MetaState :=
  { s with isConnected := false, account := some "", isOpen := false }

/-- The user interactions and provider events `MetaMaskConnect` can
process. -/
inductive MetaOp where
  | mount
  | setOpen (b : Bool)
  | connect
  | disconnect
  | accountsChanged (accounts : List String)
  deriving DecidableEq

/-- State transition of `MetaMaskConnect` for one operation. -/
def metaStep (env : Env) (s : MetaState) : MetaOp → MetaState
  | .mount => (metaMount env s).1
  | .setOpen b => { s with isOpen := b }
  | .connect => (metaConnectWallet env s).1
  | .disconnect => metaDisconnectWallet s
  | .accountsChanged accounts => metaAccountsChanged s accounts

/-- Provider-call/log trace of one `MetaMaskConnect` operation. -/
def metaTrace (env : Env) (s : MetaState) : MetaOp → List Event
  | .mount => (metaMount env s).2
  | .connect => (metaConnectWallet env s).2
  | _ => []

/-! ## Shared helper lemmas -/

/-- A probe that reports no existing connection has not changed the
component state. -/
theorem probe_not_found_state (env : Env) (s : MultiState) (w : WalletType)
    (h : (checkExistingConnection env s w).found = false) :
    (checkExistingConnection env s w).state = s := by
  cases w <;>
    simp only [checkExistingConnection, probeMetaMask, probePhantom, probeKeplr] at * <;>
    (repeat' split at h) <;> simp_all

/-! ## C2 / C3: account-change events -/

/-- C2: an account-change event that reports disconnection (empty ethereum
accounts list, or null solana public key) clears all connection state: the
account becomes the empty string and the connected-wallet indicator becomes
`none` (`MultiWalletConnect`) resp. `false` (`MetaMaskConnect`). -/
theorem accountsChanged_disconnect_clears :
    (∀ s : MultiState, (multiAccountsChanged s []).account = some "" ∧
      (multiAccountsChanged s []).connectedWallet = none) ∧
    (∀ s : MultiState, (solAccountChanged s none).account = some "" ∧
      (solAccountChanged s none).connectedWallet = none) ∧
    (∀ s : MetaState, (metaAccountsChanged s []).account = some "" ∧
      (metaAccountsChanged s []).isConnected = false) := by
  refine ⟨fun s => ?_, fun s => ?_, fun s => ?_⟩ <;>
    simp [multiAccountsChanged, solAccountChanged, metaAccountsChanged, disconnectWallet]

/-- C3: an account-change event that reports a non-empty account updates the
stored account to the newly reported one — the head of the ethereum accounts
list, or the solana public key's string form. -/
theorem accountsChanged_updates_account :
    (∀ (s : MultiState) (a : String) (rest : List String),
      (multiAccountsChanged s (a :: rest)).account = some a) ∧
    (∀ (s : MultiState) (pk : String),
      (solAccountChanged s (some pk)).account = some pk) ∧
    (∀ (s : MetaState) (a : String) (rest : List String),
      (metaAccountsChanged s (a :: rest)).account = some a) := by
  refine ⟨fun s a rest => ?_, fun s pk => ?_, fun s a rest => ?_⟩ <;>
    simp [multiAccountsChanged, solAccountChanged, metaAccountsChanged, refreshCookies]

/-! ## C4 / C5: user-initiated connect and per-wallet normalization -/

/-- C4: when the chosen wallet's provider global is present, the probe finds
no existing connection, and the authorization call succeeds, `connectWallet`
stores the provider-returned account string in component state — for all
three wallets of `MultiWalletConnect` and for `MetaMaskConnect`. -/
theorem connect_success_stores_account :
    (∀ (env : Env) (s : MultiState) (e : EthProvider) (l : List String)
        (a : String) (t : List String),
      env.ethereum = some e → e.accountsAt 0 = .ok [] →
      e.requestAccounts = .ok l → e.accountsAt 1 = .ok (a :: t) →
      (connectWallet env s .MetaMask).state.account = some a ∧
      (connectWallet env s .MetaMask).ok = true) ∧
    (∀ (env : Env) (s : MultiState) (sol : SolProvider) (pk : String),
      env.solana = some sol → sol.isPhantom = true →
      sol.isConnectedResult = .ok false → sol.connectResult = .ok pk →
      (connectWallet env s .Phantom).state.account = some pk ∧
      (connectWallet env s .Phantom).ok = true) ∧
    (∀ (env : Env) (s : MultiState) (k : KeplrProvider) (a : String)
        (t : List String),
      env.keplr = some k → k.signerThrowsAt 0 = true →
      k.enableResult = .ok () → k.signerThrowsAt 1 = false →
      k.accountsAt 1 = .ok (a :: t) →
      (connectWallet env s .Keplr).state.account = some a ∧
      (connectWallet env s .Keplr).ok = true) ∧
    (∀ (env : Env) (s : MetaState) (e : EthProvider) (l : List String)
        (a : String) (t : List String),
      env.ethereum = some e → e.requestAccounts = .ok l →
      e.accountsAt 0 = .ok (a :: t) →
      (metaConnectWallet env s).1.account = some a ∧
      (metaConnectWallet env s).1.isConnected = true) := by
  refine ⟨?_, ?_, ?_, ?_⟩
  · intro env s e l a t he hacc0 hreq hacc1
    simp [connectWallet, checkExistingConnection, probeMetaMask, connectPhase,
      he, hacc0, hreq, hacc1, refreshCookies]
  · intro env s sol pk hs hph hic hc
    simp [connectWallet, checkExistingConnection, probePhantom, connectPhase,
      hs, hph, hic, hc, refreshCookies]
  · intro env s k a t hk hsig0 hen hsig1 hacc1
    simp [connectWallet, checkExistingConnection, probeKeplr, connectPhase,
      hk, hsig0, hen, hsig1, hacc1, refreshCookies]
  · intro env s e l a t he hreq hacc0
    simp [metaConnectWallet, he, hreq, hacc0]

/-- A concrete environment in which all four parts of
`connect_success_stores_account` fire. -/
def envC4 : Env :=
  { ethereum := some
      { isMetaMask := true,
        accountsAt := fun n => if n = 0 then .ok [] else .ok ["0xAbC"],
        requestAccounts := .ok ["0xAbC"] },
    solana := some
      { isPhantom := true, isConnectedResult := .ok false,
        publicKey := none, connectResult := .ok "SoLKey1" },
    keplr := some
      { enableResult := .ok (),
        signerThrowsAt := fun n => n = 0,
        accountsAt := fun _ => .ok ["cosmos1abc"] } }

/-- A metamask-only environment where `eth_accounts` immediately reports an
account at every call site. -/
def envEthConnected : Env :=
  { ethereum := some
      { isMetaMask := true,
        accountsAt := fun _ => .ok ["0xAbC"],
        requestAccounts := .ok ["0xAbC"] },
    solana := none, keplr := none }

/-- Witness for C4 at the concrete environment `envC4`. -/
theorem connect_success_stores_account_witness :
    ((connectWallet envC4 initMulti .MetaMask).state.account = some "0xAbC" ∧
      (connectWallet envC4 initMulti .MetaMask).ok = true) ∧
    ((connectWallet envC4 initMulti .Phantom).state.account = some "SoLKey1" ∧
      (connectWallet envC4 initMulti .Phantom).ok = true) ∧
    ((connectWallet envC4 initMulti .Keplr).state.account = some "cosmos1abc" ∧
      (connectWallet envC4 initMulti .Keplr).ok = true) ∧
    ((metaConnectWallet envEthConnected initMeta).1.account = some "0xAbC" ∧
      (metaConnectWallet envEthConnected initMeta).1.isConnected = true) :=
  ⟨connect_success_stores_account.1 envC4 initMulti _ ["0xAbC"] "0xAbC" []
      rfl rfl rfl rfl,
    connect_success_stores_account.2.1 envC4 initMulti _ "SoLKey1" rfl rfl rfl rfl,
    connect_success_stores_account.2.2.1 envC4 initMulti _ "cosmos1abc" []
      rfl rfl rfl rfl rfl,
    connect_success_stores_account.2.2.2 envEthConnected initMeta _ ["0xAbC"]
      "0xAbC" [] rfl rfl rfl⟩

/-- A concrete environment where all three wallets report an existing
authorized connection. -/
def envAllConnected : Env :=
  { ethereum := some
      { isMetaMask := true,
        accountsAt := fun _ => .ok ["0xAbC"],
        requestAccounts := .ok ["0xAbC"] },
    solana := some
      { isPhantom := true, isConnectedResult := .ok true,
        publicKey := some "SoLKey1", connectResult := .ok "SoLKey1" },
    keplr := some
      { enableResult := .ok (),
        signerThrowsAt := fun _ => false,
        accountsAt := fun _ => .ok ["cosmos1abc"] } }

/-- An ethereum provider that authorizes (`eth_requestAccounts` resolves)
but answers every `eth_accounts` request with an empty list. -/
def envEthEmptyAccounts : Env :=
  { ethereum := some
      { isMetaMask := true,
        accountsAt := fun _ => .ok [],
        requestAccounts := .ok [] },
    solana := none, keplr := none }

/-- Counterexample to C5: the connect-phase `switch` of `connectWallet`
(MetaMask branch) runs `setAccount(accounts[0])` with no emptiness check,
so when `eth_requestAccounts` succeeds but the follow-up `eth_accounts`
answers an empty list, the connect completes successfully (`ok = true`, the
dialog closes) and sets `connectedWallet = MetaMask`, yet the stored
account is JS `undefined` (`none`), not a provider-reported address string
— there is no string `a` with `account = some a`.  So not every successful
connect normalizes into "account = the provider-reported address
string". -/
theorem connect_normalizes_counterexample :
    (connectWallet envEthEmptyAccounts initMulti .MetaMask).ok = true ∧
    (connectWallet envEthEmptyAccounts initMulti .MetaMask).state.connectedWallet =
      some .MetaMask ∧
    (connectWallet envEthEmptyAccounts initMulti .MetaMask).state.isOpen = false ∧
    (connectWallet envEthEmptyAccounts initMulti .MetaMask).state.account = none :=
  ⟨rfl, rfl, rfl, rfl⟩

/-- C5 amended: every successful connection path — the existing-connection
probe and the connect-phase `switch`, for each of the three wallets — sets
`connectedWallet` to the connected wallet type and `account` to the
provider-reported address string, with one exception: the MetaMask connect
phase stores `accounts[0]` without an emptiness check, so when
`eth_accounts` answers an empty list after a successful authorization, the
connect still succeeds with `connectedWallet = MetaMask` but stores
`undefined` (`none`) instead of an address string. -/
theorem connect_normalizes_state :
    (∀ (env : Env) (s : MultiState) (e : EthProvider) (a : String)
        (t : List String),
      env.ethereum = some e → e.accountsAt 0 = .ok (a :: t) →
      (checkExistingConnection env s .MetaMask).found = true ∧
      (checkExistingConnection env s .MetaMask).state.account = some a ∧
      (checkExistingConnection env s .MetaMask).state.connectedWallet =
        some .MetaMask) ∧
    (∀ (env : Env) (s : MultiState) (sol : SolProvider) (pk : String),
      env.solana = some sol → sol.isPhantom = true →
      sol.isConnectedResult = .ok true → sol.publicKey = some pk →
      (checkExistingConnection env s .Phantom).found = true ∧
      (checkExistingConnection env s .Phantom).state.account = some pk ∧
      (checkExistingConnection env s .Phantom).state.connectedWallet =
        some .Phantom) ∧
    (∀ (env : Env) (s : MultiState) (k : KeplrProvider) (a : String)
        (t : List String),
      env.keplr = some k → k.signerThrowsAt 0 = false →
      k.accountsAt 0 = .ok (a :: t) →
      (checkExistingConnection env s .Keplr).found = true ∧
      (checkExistingConnection env s .Keplr).state.account = some a ∧
      (checkExistingConnection env s .Keplr).state.connectedWallet =
        some .Keplr) ∧
    (∀ (env : Env) (s : MultiState) (e : EthProvider) (l : List String)
        (a : String) (t : List String),
      env.ethereum = some e → e.accountsAt 0 = .ok [] →
      e.requestAccounts = .ok l → e.accountsAt 1 = .ok (a :: t) →
      (connectWallet env s .MetaMask).state.account = some a ∧
      (connectWallet env s .MetaMask).state.connectedWallet =
        some .MetaMask) ∧
    (∀ (env : Env) (s : MultiState) (sol : SolProvider) (pk : String),
      env.solana = some sol → sol.isPhantom = true →
      sol.isConnectedResult = .ok false → sol.connectResult = .ok pk →
      (connectWallet env s .Phantom).state.account = some pk ∧
      (connectWallet env s .Phantom).state.connectedWallet =
        some .Phantom) ∧
    (∀ (env : Env) (s : MultiState) (k : KeplrProvider) (a : String)
        (t : List String),
      env.keplr = some k → k.signerThrowsAt 0 = true →
      k.enableResult = .ok () → k.signerThrowsAt 1 = false →
      k.accountsAt 1 = .ok (a :: t) →
      (connectWallet env s .Keplr).state.account = some a ∧
      (connectWallet env s .Keplr).state.connectedWallet = some .Keplr) ∧
    (∀ (env : Env) (s : MultiState) (e : EthProvider) (l : List String),
      env.ethereum = some e → e.accountsAt 0 = .ok [] →
      e.requestAccounts = .ok l → e.accountsAt 1 = .ok [] →
      (connectWallet env s .MetaMask).ok = true ∧
      (connectWallet env s .MetaMask).state.connectedWallet =
        some .MetaMask ∧
      (connectWallet env s .MetaMask).state.account = none) := by
  refine ⟨?_, ?_, ?_, ?_, ?_, ?_, ?_⟩
  · intro env s e a t he hacc
    simp [checkExistingConnection, probeMetaMask, he, hacc, refreshCookies]
  · intro env s sol pk hs hph hic hpk
    simp [checkExistingConnection, probePhantom, hs, hph, hic, hpk, refreshCookies]
  · intro env s k a t hk hsig hacc
    simp [checkExistingConnection, probeKeplr, hk, hsig, hacc, refreshCookies]
  · intro env s e l a t he hacc0 hreq hacc1
    simp [connectWallet, checkExistingConnection, probeMetaMask, connectPhase,
      he, hacc0, hreq, hacc1, refreshCookies]
  · intro env s sol pk hs hph hic hc
    simp [connectWallet, checkExistingConnection, probePhantom, connectPhase,
      hs, hph, hic, hc, refreshCookies]
  · intro env s k a t hk hsig0 hen hsig1 hacc1
    simp [connectWallet, checkExistingConnection, probeKeplr, connectPhase,
      hk, hsig0, hen, hsig1, hacc1, refreshCookies]
  · intro env s e l he hacc0 hreq hacc1
    simp [connectWallet, checkExistingConnection, probeMetaMask, connectPhase,
      he, hacc0, hreq, hacc1, refreshCookies]

/-- Witness for the amended C5: all three probe paths at `envAllConnected`,
all three connect-phase paths at `envC4`, and the MetaMask empty-list
exception at `envEthEmptyAccounts`. -/
theorem connect_normalizes_state_witness :
    ((checkExistingConnection envAllConnected initMulti .MetaMask).state.account =
        some "0xAbC" ∧
      (checkExistingConnection envAllConnected initMulti .MetaMask).state.connectedWallet =
        some .MetaMask) ∧
    ((checkExistingConnection envAllConnected initMulti .Phantom).state.account =
        some "SoLKey1" ∧
      (checkExistingConnection envAllConnected initMulti .Phantom).state.connectedWallet =
        some .Phantom) ∧
    ((checkExistingConnection envAllConnected initMulti .Keplr).state.account =
        some "cosmos1abc" ∧
      (checkExistingConnection envAllConnected initMulti .Keplr).state.connectedWallet =
        some .Keplr) ∧
    ((connectWallet envC4 initMulti .MetaMask).state.account = some "0xAbC" ∧
      (connectWallet envC4 initMulti .MetaMask).state.connectedWallet =
        some .MetaMask) ∧
    ((connectWallet envC4 initMulti .Phantom).state.account = some "SoLKey1" ∧
      (connectWallet envC4 initMulti .Phantom).state.connectedWallet =
        some .Phantom) ∧
    ((connectWallet envC4 initMulti .Keplr).state.account = some "cosmos1abc" ∧
      (connectWallet envC4 initMulti .Keplr).state.connectedWallet =
        some .Keplr) ∧
    ((connectWallet envEthEmptyAccounts initMulti .MetaMask).state.connectedWallet =
        some .MetaMask ∧
      (connectWallet envEthEmptyAccounts initMulti .MetaMask).state.account = none) :=
  ⟨⟨(connect_normalizes_state.1 envAllConnected initMulti _ "0xAbC" [] rfl rfl).2.1,
    (connect_normalizes_state.1 envAllConnected initMulti _ "0xAbC" [] rfl rfl).2.2⟩,
   ⟨(connect_normalizes_state.2.1 envAllConnected initMulti _ "SoLKey1" rfl rfl rfl rfl).2.1,
    (connect_normalizes_state.2.1 envAllConnected initMulti _ "SoLKey1" rfl rfl rfl rfl).2.2⟩,
   ⟨(connect_normalizes_state.2.2.1 envAllConnected initMulti _ "cosmos1abc" [] rfl rfl rfl).2.1,
    (connect_normalizes_state.2.2.1 envAllConnected initMulti _ "cosmos1abc" [] rfl rfl rfl).2.2⟩,
   connect_normalizes_state.2.2.2.1 envC4 initMulti _ ["0xAbC"] "0xAbC" []
     rfl rfl rfl rfl,
   connect_normalizes_state.2.2.2.2.1 envC4 initMulti _ "SoLKey1" rfl rfl rfl rfl,
   connect_normalizes_state.2.2.2.2.2.1 envC4 initMulti _ "cosmos1abc" []
     rfl rfl rfl rfl rfl,
   (connect_normalizes_state.2.2.2.2.2.2 envEthEmptyAccounts initMulti _ []
     rfl rfl rfl rfl).2⟩

/-! ## C7: cookie writes mirror UI state -/

set_option maxHeartbeats 1600000 in
/-- C7: the only persistence `MultiWalletConnect` touches is the cookie pair
`walletType` / `accountAddress` (the `cookies` field of the model, by
construction of the embedding); after any operation the pair is either
untouched, removed, or equal to the (stringified) wallet type and account
held in UI state after that operation; and disconnecting removes both. -/
theorem cookies_mirror_state :
    ∀ (env : Env) (s : MultiState) (op : MultiOp),
      ((multiStep env s op).cookies = s.cookies ∨
        (multiStep env s op).cookies = none ∨
        (multiStep env s op).cookies =
          some (serializeWT (multiStep env s op).connectedWallet,
                serializeAcc (multiStep env s op).account)) ∧
      (op = .disconnect → (multiStep env s op).cookies = none) := by
  intro env s op
  cases op with
  | connect w =>
    cases w <;>
      simp only [multiStep, connectWallet, checkExistingConnection, probeMetaMask,
        probePhantom, probeKeplr, connectPhase, refreshCookies, disconnectWallet,
        serializeWT, serializeAcc, wtStr] <;>
      (repeat' split) <;> simp_all
  | ethAccountsChanged accounts =>
    cases accounts <;>
      simp [multiStep, multiAccountsChanged, disconnectWallet, refreshCookies,
        serializeAcc]
  | solAccountChangedEv pk =>
    cases pk <;>
      simp [multiStep, solAccountChanged, disconnectWallet, refreshCookies,
        serializeAcc]
  | mount => simp [multiStep, multiMount]
  | openDialog => simp [multiStep]
  | setOpen b => simp [multiStep]
  | disconnect => simp [multiStep, disconnectWallet]

/-- Witness for C7: disconnecting from the initial state removes both
cookies (and the disjunction holds there). -/
theorem cookies_mirror_state_witness :
    ((multiStep ⟨none, none, none⟩ initMulti .disconnect).cookies = initMulti.cookies ∨
      (multiStep ⟨none, none, none⟩ initMulti .disconnect).cookies = none ∨
      (multiStep ⟨none, none, none⟩ initMulti .disconnect).cookies =
        some (serializeWT (multiStep ⟨none, none, none⟩ initMulti .disconnect).connectedWallet,
              serializeAcc (multiStep ⟨none, none, none⟩ initMulti .disconnect).account)) ∧
    (multiStep ⟨none, none, none⟩ initMulti .disconnect).cookies = none :=
  ⟨(cookies_mirror_state ⟨none, none, none⟩ initMulti .disconnect).1,
   (cookies_mirror_state ⟨none, none, none⟩ initMulti .disconnect).2 rfl⟩

/-! ## C8: only account-discovery methods are ever invoked -/

/-- The provider methods the source is allowed to call: `eth_accounts`,
`eth_requestAccounts`, and the solana / keplr account-discovery calls. -/
def allowedMethods : List Method :=
  [.ethAccounts, .ethRequestAccounts, .solConnect, .solIsConnected,
   .solPublicKey, .keplrEnable, .keplrGetOfflineSigner, .keplrGetAccounts]

/-- C8: in every execution of every operation of either component, every
provider method invoked is one of the account-discovery methods — never a
signing, broadcasting or key-management method. -/
theorem only_account_methods_called :
    ∀ (env : Env) (sm : MultiState) (sM : MetaState) (opm : MultiOp)
      (opM : MetaOp),
      ((callsOf (multiTrace env sm opm)).all (allowedMethods.contains ·) = true) ∧
      ((callsOf (metaTrace env sM opM)).all (allowedMethods.contains ·) = true) := by
  intro env sm sM opm opM
  constructor
  · cases opm with
    | mount => simp [multiTrace, multiMount, callsOf]
    | connect w =>
      cases w <;>
        simp only [multiTrace, connectWallet, checkExistingConnection,
          probeMetaMask, probePhantom, probeKeplr, connectPhase] <;>
        (repeat' split) <;> rfl
    | openDialog => simp [multiTrace, callsOf]
    | setOpen b => simp [multiTrace, callsOf]
    | disconnect => simp [multiTrace, callsOf]
    | ethAccountsChanged accounts => simp [multiTrace, callsOf]
    | solAccountChangedEv pk => simp [multiTrace, callsOf]
  · cases opM with
    | mount =>
      simp only [metaTrace, metaMount, metaCheckConnection]
      (repeat' split) <;> rfl
    | connect =>
      simp only [metaTrace, metaConnectWallet]
      (repeat' split) <;> rfl
    | setOpen b => simp [metaTrace, callsOf]
    | disconnect => simp [metaTrace, callsOf]
    | accountsChanged accounts => simp [metaTrace, callsOf]

/-! ## C9: the dialog closes exactly on connect success -/

/-- C9: starting a user-initiated connect from a disconnected state, the
dialog-open flag is set to false exactly when the connect succeeds (an
existing connection is found or the chosen provider authorizes, observable
as the connected-wallet indicator becoming set); on failure the flag is left
unchanged. -/
theorem dialog_closes_iff_connect_succeeds :
    (∀ (env : Env) (s : MultiState) (w : WalletType),
      s.connectedWallet = none →
      ((connectWallet env s w).state.connectedWallet.isSome = true →
        (connectWallet env s w).state.isOpen = false) ∧
      ((connectWallet env s w).state.connectedWallet = none →
        (connectWallet env s w).state.isOpen = s.isOpen)) ∧
    (∀ (env : Env) (s : MetaState),
      s.isConnected = false →
      ((metaConnectWallet env s).1.isConnected = true →
        (metaConnectWallet env s).1.isOpen = false) ∧
      ((metaConnectWallet env s).1.isConnected = false →
        (metaConnectWallet env s).1.isOpen = s.isOpen)) := by
  constructor
  · intro env s w hcw
    cases w <;>
      simp only [connectWallet, checkExistingConnection, probeMetaMask,
        probePhantom, probeKeplr, connectPhase, refreshCookies] <;>
      (repeat' split) <;> simp_all
  · intro env s hic
    simp only [metaConnectWallet]
    (repeat' split) <;> simp_all

/-- Witness for C9: a successful MetaMask connect from the initial state
closes the dialog; a connect attempt with no providers present leaves the
flag at its initial value. -/
theorem dialog_closes_iff_connect_succeeds_witness :
    (connectWallet envEthConnected initMulti .MetaMask).state.isOpen = false ∧
    (connectWallet ⟨none, none, none⟩ initMulti .MetaMask).state.isOpen =
      initMulti.isOpen ∧
    (metaConnectWallet envEthConnected initMeta).1.isOpen = false :=
  ⟨(dialog_closes_iff_connect_succeeds.1 envEthConnected initMulti .MetaMask rfl).1 rfl,
   (dialog_closes_iff_connect_succeeds.1 ⟨none, none, none⟩ initMulti .MetaMask rfl).2 rfl,
   (dialog_closes_iff_connect_succeeds.2 envEthConnected initMeta rfl).1 rfl⟩

/-! ## C1: what actually happens on mount -/

/-- A solana provider that reports an already-authorized connection. -/
def solConnectedProvider : SolProvider :=
  { isPhantom := true, isConnectedResult := .ok true,
    publicKey := some "SoLKey1", connectResult := .ok "SoLKey1" }

/-- An environment where only `window.solana` is injected and it is already
authorized. -/
def envSolOnly : Env :=
  { ethereum := none, solana := some solConnectedProvider, keplr := none }

/-- Counterexample to C1: in an environment whose solana provider holds an
already-authorized account, neither component's mount effect stores that
account — `MultiWalletConnect`'s mount touches no state and issues no
provider call at all, and `MetaMaskConnect`'s mount probes only
`window.ethereum`, so the account stays the empty initial string.  The
components do not "probe each known wallet-provider global" on mount. -/
theorem mount_probe_counterexample :
    envSolOnly.solana = some solConnectedProvider ∧
    solConnectedProvider.isConnectedResult = .ok true ∧
    solConnectedProvider.publicKey = some "SoLKey1" ∧
    multiMount envSolOnly initMulti = (initMulti, []) ∧
    metaMount envSolOnly initMeta = (initMeta, []) ∧
    initMulti.account = some "" ∧ initMeta.account = some "" :=
  ⟨rfl, rfl, rfl, rfl, rfl, rfl, rfl⟩

/-- C1 amended: only `MetaMaskConnect` probes on mount, and only
`window.ethereum`: if `eth_accounts` reports an authorized account, the
mount stores it and marks the component connected; the probe is silent (the
only method it ever issues is the non-prompting `eth_accounts`).
`MultiWalletConnect` performs no provider probe on mount at all — it probes
a provider only during a user-initiated connect. -/
theorem mount_probe_amended :
    (∀ (env : Env) (s : MetaState) (e : EthProvider) (a : String)
        (t : List String),
      env.ethereum = some e → e.accountsAt 0 = .ok (a :: t) →
      (metaMount env s).1.account = some a ∧
      (metaMount env s).1.isConnected = true) ∧
    (∀ (env : Env) (s : MetaState),
      ((callsOf (metaMount env s).2).all (· = Method.ethAccounts)) = true) ∧
    (∀ (env : Env) (s : MultiState), multiMount env s = (s, [])) := by
  refine ⟨?_, ?_, fun env s => rfl⟩
  · intro env s e a t he hacc
    simp [metaMount, metaCheckConnection, he, hacc]
  · intro env s
    simp only [metaMount, metaCheckConnection]
    (repeat' split) <;> rfl

/-- Witness for the amended C1: with an authorized ethereum provider,
`MetaMaskConnect`'s mount stores the reported account. -/
theorem mount_probe_amended_witness :
    (metaMount envEthConnected initMeta).1.account = some "0xAbC" ∧
    (metaMount envEthConnected initMeta).1.isConnected = true :=
  mount_probe_amended.1 envEthConnected initMeta _ "0xAbC" [] rfl rfl

/-! ## C6: try/catch, logging, and re-issued calls -/

/-- Within the probe alone, no provider method is called twice. -/
theorem probe_calls_nodup (env : Env) (s : MultiState) (w : WalletType) :
    (callsOf (checkExistingConnection env s w).trace).Nodup := by
  cases w <;>
    simp only [checkExistingConnection, probeMetaMask, probePhantom, probeKeplr] <;>
    (repeat' split) <;> (dsimp only; decide)

/-- Within the connect phase alone, no provider method is called twice. -/
theorem connectPhase_calls_nodup (env : Env) (s : MultiState) (w : WalletType) :
    (callsOf (connectPhase env s w).trace).Nodup := by
  cases w <;> simp only [connectPhase] <;> (repeat' split) <;> (dsimp only; decide)

/-- The connect phase logs whenever it catches an exception. -/
theorem connectPhase_fail_logs (env : Env) (s : MultiState) (w : WalletType)
    (h : (connectPhase env s w).ok = false) :
    Event.logError ∈ (connectPhase env s w).trace := by
  cases w <;> simp only [connectPhase] at * <;> (repeat' split) <;> simp_all

/-- `connectWallet`'s trace is the probe trace alone (connection found) or
the probe trace followed by the connect-phase trace. -/
theorem connectWallet_trace_split (env : Env) (s : MultiState) (w : WalletType) :
    (connectWallet env s w).trace = (checkExistingConnection env s w).trace ∨
    (connectWallet env s w).trace =
      (checkExistingConnection env s w).trace ++
        (connectPhase env (checkExistingConnection env s w).state w).trace := by
  simp only [connectWallet]
  split <;> simp

/-- The real ethereum provider of `envEthThrows`: every `eth_accounts`
request rejects, while `eth_requestAccounts` resolves. -/
def ethThrowingProvider : EthProvider :=
  { isMetaMask := true, accountsAt := fun _ => .error (),
    requestAccounts := .ok [] }

/-- A keplr provider whose `getOfflineSigner` always throws. -/
def keplrThrowingProvider : KeplrProvider :=
  { enableResult := .ok (), signerThrowsAt := fun _ => true,
    accountsAt := fun _ => .ok [] }

/-- Environment for the C6 counterexample. -/
def envEthThrows : Env :=
  { ethereum := some ethThrowingProvider, solana := none,
    keplr := some keplrThrowingProvider }

/-- Counterexample to C6, in both of its parts.  First, a failed call *is*
re-issued: with `eth_accounts` rejecting, `connectWallet('MetaMask')`'s
probe issues `eth_accounts`, catches and logs the failure, and then the
connect phase issues the very same `eth_accounts` request again — the call
appears twice in one operation's trace.  Second, not every provider failure
is logged: the Keplr branch of `checkExistingConnection` catches the
`getOfflineSigner` throw in an inner `catch` block that is empty, so its
trace carries no log event. -/
theorem call_guard_counterexample :
    ethThrowingProvider.accountsAt 0 = .error () ∧
    ethThrowingProvider.accountsAt 1 = .error () ∧
    (callsOf (connectWallet envEthThrows initMulti .MetaMask).trace).count
      .ethAccounts = 2 ∧
    keplrThrowingProvider.signerThrowsAt 0 = true ∧
    (checkExistingConnection envEthThrows initMulti .Keplr).trace =
      [.call .keplrGetOfflineSigner] ∧
    Event.logError ∉ (checkExistingConnection envEthThrows initMulti .Keplr).trace :=
  ⟨rfl, rfl, by decide, rfl, rfl, by decide⟩

/-- C6 amended: every provider call is guarded by a try/catch, so a failing
call makes the operation catch and finish; every catch in `connectWallet`'s
connect phase logs, but the Keplr branch of the probe swallows its failure
silently; and no call is issued twice within the probe or within the
connect phase — however `connectWallet`, after a call failed during its
probe, may issue the same method once more in the connect phase, so a
method appears at most twice in one operation's trace. -/
theorem call_guard_amended :
    ∀ (env : Env) (s : MultiState) (sM : MetaState) (w : WalletType),
      (callsOf (checkExistingConnection env s w).trace).Nodup ∧
      (callsOf (connectPhase env s w).trace).Nodup ∧
      (∀ m : Method,
        (callsOf (connectWallet env s w).trace).count m ≤ 2) ∧
      ((connectWallet env s w).ok = false →
        Event.logError ∈ (connectWallet env s w).trace) ∧
      (callsOf (metaCheckConnection env sM).2).Nodup ∧
      (callsOf (metaConnectWallet env sM).2).Nodup := by
  intro env s sM w
  refine ⟨probe_calls_nodup env s w, connectPhase_calls_nodup env s w, ?_, ?_, ?_, ?_⟩
  · intro m
    rcases connectWallet_trace_split env s w with h | h <;> rw [h]
    · exact le_trans (List.nodup_iff_count_le_one.mp (probe_calls_nodup env s w) m)
        (by omega)
    · rw [callsOf, List.filterMap_append, List.count_append]
      exact Nat.add_le_add
        (List.nodup_iff_count_le_one.mp (probe_calls_nodup env s w) m)
        (List.nodup_iff_count_le_one.mp
          (connectPhase_calls_nodup env (checkExistingConnection env s w).state w) m)
  · intro h
    cases hf : (checkExistingConnection env s w).found with
    | true => simp [connectWallet, hf] at h
    | false =>
      have ht : (connectWallet env s w).trace =
          (checkExistingConnection env s w).trace ++
            (connectPhase env (checkExistingConnection env s w).state w).trace := by
        simp [connectWallet, hf]
      have hok : (connectWallet env s w).ok =
          (connectPhase env (checkExistingConnection env s w).state w).ok := by
        simp [connectWallet, hf]
      rw [hok] at h
      rw [ht, List.mem_append]
      exact Or.inr (connectPhase_fail_logs env _ w h)
  · simp only [metaCheckConnection]
    (repeat' split) <;> (dsimp only; decide)
  · simp only [metaConnectWallet]
    (repeat' split) <;> (dsimp only; decide)

/-- Witness for the amended C6: with no providers injected, the MetaMask
connect fails and the failure is logged. -/
theorem call_guard_amended_witness :
    Event.logError ∈ (connectWallet ⟨none, none, none⟩ initMulti .MetaMask).trace :=
  (call_guard_amended ⟨none, none, none⟩ initMulti initMeta .MetaMask).2.2.2.1 rfl

/-! ## C10: the account/connected invariant -/

/-- The stored account is a non-empty string (JS `undefined` and `''` are
both "not filled"). -/
def accFilled : Option String → Bool
  | some a => a != ""
  | none => false

/-- The claimed invariant for `MultiWalletConnect`: account non-empty iff a
wallet is connected. -/
def invMulti (s : MultiState) : Bool :=
  accFilled s.account == s.connectedWallet.isSome

/-- The claimed invariant for `MetaMaskConnect`. -/
def invMeta (s : MetaState) : Bool :=
  accFilled s.account == s.isConnected

/-- Counterexample to C10: from the initial (disconnected) state, an
ethereum `accountsChanged` event reporting the account `"0xAbC"` makes
`MultiWalletConnect` store the non-empty account while `connectedWallet`
stays `none` — the handler updates the account without ever setting the
connected-wallet indicator, so the claimed invariant is broken by a
reachable transition. -/
theorem connection_invariant_counterexample :
    invMulti initMulti = true ∧
    multiStep ⟨none, none, none⟩ initMulti (.ethAccountsChanged ["0xAbC"]) =
      { isOpen := false, connectedWallet := none, account := some "0xAbC",
        cookies := some ("null", "0xAbC") } ∧
    invMulti
      (multiStep ⟨none, none, none⟩ initMulti (.ethAccountsChanged ["0xAbC"])) =
      false :=
  ⟨by decide, rfl, by decide⟩

/-- Well-behaved ethereum provider: reported accounts are non-empty
strings, and once `eth_requestAccounts` has succeeded, `eth_accounts`
reports at least one account. -/
def EthProvider.wf (e : EthProvider) : Prop :=
  (∀ n l, e.accountsAt n = .ok l → ∀ x ∈ l, x ≠ "") ∧
  (∀ l, e.requestAccounts = .ok l →
    ∀ n, ∃ a t, e.accountsAt n = .ok (a :: t))

/-- Well-behaved solana provider: public-key strings are non-empty. -/
def SolProvider.wf (p : SolProvider) : Prop :=
  (∀ x, p.publicKey = some x → x ≠ "") ∧
  (∀ x, p.connectResult = .ok x → x ≠ "")

/-- Well-behaved keplr provider: reported addresses are non-empty. -/
def KeplrProvider.wf (k : KeplrProvider) : Prop :=
  ∀ n l, k.accountsAt n = .ok l → ∀ x ∈ l, x ≠ ""

/-- Every injected provider is well-behaved. -/
def Env.wf (env : Env) : Prop :=
  (∀ e, env.ethereum = some e → e.wf) ∧
  (∀ p, env.solana = some p → p.wf) ∧
  (∀ k, env.keplr = some k → k.wf)

/-- Restriction on `MultiWalletConnect` operations under which the amended
invariant claim holds: account-change events carry non-empty account
strings, and an event that reports an account arrives only while a wallet
is connected (the handlers never set `connectedWallet`). -/
def multiOpSafe (s : MultiState) : MultiOp → Prop
  | .ethAccountsChanged accounts =>
      (∀ x ∈ accounts, x ≠ "") ∧
      (accounts ≠ [] → s.connectedWallet.isSome = true)
  | .solAccountChangedEv pk =>
      (∀ x, pk = some x → x ≠ "") ∧
      (pk.isSome = true → s.connectedWallet.isSome = true)
  | _ => True

/-- Restriction on `MetaMaskConnect` operations: account-change events
carry non-empty account strings. -/
def metaOpSafe : MetaOp → Prop
  | .accountsChanged accounts => ∀ x ∈ accounts, x ≠ ""
  | _ => True

/-- The probe preserves the invariant when providers are well-behaved. -/
theorem probe_preserves_inv (env : Env) (s : MultiState) (w : WalletType)
    (hwf : Env.wf env) (hinv : invMulti s = true) :
    invMulti (checkExistingConnection env s w).state = true := by
  obtain ⟨hwfe, hwfs, hwfk⟩ := hwf
  cases w
  case MetaMask =>
    simp only [checkExistingConnection, probeMetaMask]
    cases he : env.ethereum with
    | none => exact hinv
    | some e =>
      dsimp only
      cases ha : e.accountsAt 0 with
      | error u => exact hinv
      | ok accounts =>
        cases accounts with
        | nil => exact hinv
        | cons a t =>
          have hne : a ≠ "" := (hwfe e he).1 0 (a :: t) ha a (List.mem_cons_self a t)
          simp [invMulti, accFilled, refreshCookies, hne]
  case Phantom =>
    simp only [checkExistingConnection, probePhantom]
    cases hs : env.solana with
    | none => exact hinv
    | some sol =>
      dsimp only
      cases hph : sol.isPhantom with
      | false => exact hinv
      | true =>
        cases hic : sol.isConnectedResult with
        | error u => exact hinv
        | ok b =>
          cases b with
          | false => exact hinv
          | true =>
            cases hpk : sol.publicKey with
            | none => exact hinv
            | some pk =>
              have hne : pk ≠ "" := (hwfs sol hs).1 pk hpk
              simp [invMulti, accFilled, refreshCookies, hne]
  case Keplr =>
    simp only [checkExistingConnection, probeKeplr]
    cases hk : env.keplr with
    | none => exact hinv
    | some k =>
      dsimp only
      cases hsig : k.signerThrowsAt 0 with
      | true => exact hinv
      | false =>
        cases ha : k.accountsAt 0 with
        | error u => exact hinv
        | ok accounts =>
          cases accounts with
          | nil => exact hinv
          | cons a t =>
            have hne : a ≠ "" := hwfk k hk 0 (a :: t) ha a (List.mem_cons_self a t)
            simp [invMulti, accFilled, refreshCookies, hne]

/-- The connect phase preserves the invariant when providers are
well-behaved. -/
theorem connectPhase_preserves_inv (env : Env) (s : MultiState)
    (w : WalletType) (hwf : Env.wf env) (hinv : invMulti s = true) :
    invMulti (connectPhase env s w).state = true := by
  obtain ⟨hwfe, hwfs, hwfk⟩ := hwf
  cases w
  case MetaMask =>
    simp only [connectPhase]
    cases he : env.ethereum with
    | none => exact hinv
    | some e =>
      dsimp only
      cases hreq : e.requestAccounts with
      | error u => exact hinv
      | ok l =>
        cases ha1 : e.accountsAt 1 with
        | error u => exact hinv
        | ok accounts =>
          obtain ⟨a, t, hat⟩ := (hwfe e he).2 l hreq 1
          rw [ha1] at hat
          injection hat with h2
          subst h2
          have hne : a ≠ "" := (hwfe e he).1 1 (a :: t) ha1 a (List.mem_cons_self a t)
          simp [invMulti, accFilled, refreshCookies, hne]
  case Phantom =>
    simp only [connectPhase]
    cases hs : env.solana with
    | none => exact hinv
    | some sol =>
      dsimp only
      cases hph : sol.isPhantom with
      | false => exact hinv
      | true =>
        cases hc : sol.connectResult with
        | error u => exact hinv
        | ok pk =>
          have hne : pk ≠ "" := (hwfs sol hs).2 pk hc
          simp [invMulti, accFilled, refreshCookies, hne]
  case Keplr =>
    simp only [connectPhase]
    cases hk : env.keplr with
    | none => exact hinv
    | some k =>
      dsimp only
      cases hen : k.enableResult with
      | error u => exact hinv
      | ok u =>
        cases hsig : k.signerThrowsAt 1 with
        | true => exact hinv
        | false =>
          cases ha1 : k.accountsAt 1 with
          | error u => exact hinv
          | ok accounts =>
            cases accounts with
            | nil => exact hinv
            | cons a t =>
              have hne : a ≠ "" := hwfk k hk 1 (a :: t) ha1 a (List.mem_cons_self a t)
              simp [invMulti, accFilled, refreshCookies, hne]

/-- `connectWallet` preserves the invariant when providers are
well-behaved. -/
theorem connectWallet_preserves_inv (env : Env) (s : MultiState)
    (w : WalletType) (hwf : Env.wf env) (hinv : invMulti s = true) :
    invMulti (connectWallet env s w).state = true := by
  have hp := probe_preserves_inv env s w hwf hinv
  cases hf : (checkExistingConnection env s w).found with
  | true =>
    have hstep : (connectWallet env s w).state =
        { (checkExistingConnection env s w).state with isOpen := false } := by
      simp [connectWallet, hf]
    rw [hstep]
    exact hp
  | false =>
    have hstep : (connectWallet env s w).state =
        (connectPhase env (checkExistingConnection env s w).state w).state := by
      simp [connectWallet, hf]
    rw [hstep]
    exact connectPhase_preserves_inv env _ w hwf hp

/-- C10 amended: the invariant "the stored account is a non-empty string
iff the component is connected" holds initially and is preserved by every
transition, provided (a) providers are well-behaved — reported account
strings are non-empty and a successful authorization is followed by a
non-empty accounts list — and (b) for `MultiWalletConnect`, an
account-change event reporting an account arrives only while a wallet is
connected; without (b) the claim is false, because the account-change
handlers of `MultiWalletConnect` store the reported account without ever
setting `connectedWallet` (see the counterexample). -/
theorem connection_invariant_amended :
    (invMulti initMulti = true ∧ invMeta initMeta = true) ∧
    (∀ (env : Env) (s : MultiState) (op : MultiOp),
      Env.wf env → multiOpSafe s op → invMulti s = true →
      invMulti (multiStep env s op) = true) ∧
    (∀ (env : Env) (s : MetaState) (op : MetaOp),
      Env.wf env → metaOpSafe op → invMeta s = true →
      invMeta (metaStep env s op) = true) := by
  refine ⟨⟨by decide, by decide⟩, ?_, ?_⟩
  · intro env s op hwf hsafe hinv
    cases op with
    | mount => exact hinv
    | openDialog => exact hinv
    | setOpen b => exact hinv
    | disconnect => rfl
    | connect w => exact connectWallet_preserves_inv env s w hwf hinv
    | ethAccountsChanged accounts =>
      cases accounts with
      | nil => rfl
      | cons a t =>
        obtain ⟨hstr, hcw⟩ := hsafe
        have hne : a ≠ "" := hstr a (List.mem_cons_self a t)
        have hcw' : s.connectedWallet.isSome = true := hcw (by simp)
        simp [multiStep, multiAccountsChanged, refreshCookies, invMulti,
          accFilled, hne, hcw']
    | solAccountChangedEv pk =>
      cases pk with
      | none => rfl
      | some p =>
        obtain ⟨hstr, hcw⟩ := hsafe
        have hne : p ≠ "" := hstr p rfl
        have hcw' : s.connectedWallet.isSome = true := hcw rfl
        simp [multiStep, solAccountChanged, refreshCookies, invMulti,
          accFilled, hne, hcw']
  · intro env s op hwf hsafe hinv
    obtain ⟨hwfe, _, _⟩ := hwf
    cases op with
    | setOpen b => exact hinv
    | disconnect => rfl
    | mount =>
      simp only [metaStep, metaMount, metaCheckConnection]
      cases he : env.ethereum with
      | none => exact hinv
      | some e =>
        dsimp only
        cases ha : e.accountsAt 0 with
        | error u => exact hinv
        | ok accounts =>
          cases accounts with
          | nil => exact hinv
          | cons a t =>
            have hne : a ≠ "" := (hwfe e he).1 0 (a :: t) ha a (List.mem_cons_self a t)
            simp [invMeta, accFilled, hne]
    | connect =>
      simp only [metaStep, metaConnectWallet]
      cases he : env.ethereum with
      | none => exact hinv
      | some e =>
        dsimp only
        cases hreq : e.requestAccounts with
        | error u => exact hinv
        | ok l =>
          cases ha0 : e.accountsAt 0 with
          | error u => exact hinv
          | ok accounts =>
            obtain ⟨a, t, hat⟩ := (hwfe e he).2 l hreq 0
            rw [ha0] at hat
            injection hat with h2
            subst h2
            have hne : a ≠ "" := (hwfe e he).1 0 (a :: t) ha0 a (List.mem_cons_self a t)
            simp [invMeta, accFilled, hne]
    | accountsChanged accounts =>
      cases accounts with
      | nil => rfl
      | cons a t =>
        have hne : a ≠ "" := hsafe a (List.mem_cons_self a t)
        simp [metaStep, metaAccountsChanged, invMeta, accFilled, hne]

/-- The empty environment (no injected providers) is well-behaved. -/
theorem envEmpty_wf : Env.wf ⟨none, none, none⟩ := by
  refine ⟨?_, ?_, ?_⟩ <;> intro x h <;> cases h

/-- Witness for the amended C10: from the initial states, with no providers
injected, a disconnect transition keeps the invariant. -/
theorem connection_invariant_amended_witness :
    invMulti (multiStep ⟨none, none, none⟩ initMulti .disconnect) = true ∧
    invMeta (metaStep ⟨none, none, none⟩ initMeta .disconnect) = true :=
  ⟨connection_invariant_amended.2.1 ⟨none, none, none⟩ initMulti .disconnect
      envEmpty_wf trivial rfl,
   connection_invariant_amended.2.2 ⟨none, none, none⟩ initMeta .disconnect
      envEmpty_wf trivial rfl⟩

end Wallet
